import Mathlib

/-!
Verification development for the GAIA Adaptive Execution Scheduler
(capston2025/capston).  The scheduler's Python modules (`state.py`,
`scoring.py`, `priority_queue.py`, `adaptive_scheduler.py`) are described in
the repository's specification and in its in-repo documentation
(`CODE_REVIEW.md`, `ADAPTIVE_SCHEDULER_SUMMARY.md`, `AGENT_SERVICE_GUIDE.md`,
the verification report), which quote the load-bearing code fragments; the
module sources themselves are not in the tree, so the definitions below are
modelled from the specification, following its words and the quoted fragments.
-/

namespace GaiaScheduler

/-- Modelled from the spec: priority tier of a test item
(`priority` enum MUST | SHOULD | MAY, section 3 and `scoring.py`). -/
inductive Priority where
  | MUST
  | SHOULD
  | MAY
deriving Repr, DecidableEq

/-- Modelled from the spec: a validated test item as the scheduler sees it
(section 3 TestItem; `new_elements` is read with `item.get("new_elements", 0)`
in `scoring.py`, so a missing field is `none`). `steps` is an opaque payload
never inspected by the scheduler and is omitted. -/
structure TestItem where
  id : String
  priority : Priority
  name : String
  target_url : Option String
  new_elements : Option Int
deriving Repr, DecidableEq

/-- Modelled from the spec: what the state records about an item's last
observed page-state fingerprint (`dom_signature_by_item` plus the
unchanged-since-last-execution fact used by the stagnation penalty). -/
structure DomRecord where
  last : String
  unchanged : Bool
deriving Repr, DecidableEq

/-- Modelled from the spec: `GAIAState` in `state.py` (section 3
ExplorationState): visited target URLs, last-seen fingerprint per item,
most recent failure time per item, completed item ids.  `now` is the
scheduler's clock used for the retry window. -/
structure GAIAState where
  visited_urls : List String
  dom_history : List (String × DomRecord)
  failure_timestamps : List (String × Nat)
  completed_ids : List String
  now : Nat
  retry_window : Nat
deriving Repr, DecidableEq

/-- Modelled from the spec: a fresh exploration state (nothing observed). -/
def GAIAState.initial (retry_window : Nat) : GAIAState :=
  { visited_urls := []
    dom_history := []
    failure_timestamps := []
    completed_ids := []
    now := 0
    retry_window := retry_window }

/-- Insert a key into a list treated as a set (no duplicate entries). -/
def insertSet (x : String) (l : List String) : List String :=
  if l.contains x then l else x :: l

/-- Lookup in an association list keyed by item id. -/
def lookupId {β : Type} (id : String) : List (String × β) → Option β
  | [] => none
  | (k, v) :: rest => if k = id then some v else lookupId id rest

/-- Update (or insert) a key in an association list keyed by item id. -/
def updateId {β : Type} (id : String) (v : β) : List (String × β) → List (String × β)
  | [] => [(id, v)]
  | (k, w) :: rest => if k = id then (id, v) :: rest else (k, w) :: updateId id v rest

/-- Modelled from the spec: `mark_url_visited(url)` ignores empty input
(the `if url:` guard quoted in CODE_REVIEW.md). -/
def GAIAState.mark_url_visited (st : GAIAState) (url : String) : GAIAState :=
  if url = "" then st else { st with visited_urls := insertSet url st.visited_urls }

/-- Modelled from the spec: `record_outcome(item_id, fingerprint)` updates the
last-seen fingerprint for that item; the stagnation fact is whether the new
fingerprint equals the previously recorded one.  An item executed for the
first time has no prior fingerprint, so it is recorded as changed. -/
def GAIAState.record_outcome (st : GAIAState) (id : String) (fp : String) : GAIAState :=
  match lookupId id st.dom_history with
  | none =>
      { st with dom_history := updateId id { last := fp, unchanged := false } st.dom_history }
  | some r =>
      { st with dom_history := updateId id { last := fp, unchanged := r.last = fp } st.dom_history }

/-- Modelled from the spec: `mark_failed(item_id, timestamp)` records the most
recent failure time for the item. -/
def GAIAState.mark_failed (st : GAIAState) (id : String) (t : Nat) : GAIAState :=
  { st with failure_timestamps := updateId id t st.failure_timestamps }

/-- Modelled from the spec: `mark_completed(item_id)` adds the id to the
monotonically growing completed set. -/
def GAIAState.mark_completed (st : GAIAState) (id : String) : GAIAState :=
  { st with completed_ids := insertSet id st.completed_ids }

/-- Modelled from the spec: the stagnation predicate — the item's recorded
fingerprint is unchanged since its last execution. -/
def GAIAState.is_stale (st : GAIAState) (id : String) : Bool :=
  match lookupId id st.dom_history with
  | none => false
  | some r => r.unchanged

/-- Modelled from the spec: the retry predicate — the item has a recorded
failure within the retry window. -/
def GAIAState.has_recent_failure (st : GAIAState) (id : String) : Bool :=
  match lookupId id st.failure_timestamps with
  | none => false
  | some t => st.now - t ≤ st.retry_window

/-- Modelled from the spec: the URL-novelty predicate — the item's target URL
is not in the visited set (an absent URL is vacuously not in the set). -/
def urlUnseen (item : TestItem) (st : GAIAState) : Bool :=
  match item.target_url with
  | none => true
  | some u => ! st.visited_urls.contains u

/-- Modelled from the spec: the overridable scoring weight table of
`scoring.py` (PRIORITY_SCORES, BONUS_NEW_ELEMENTS, BONUS_UNSEEN_URL,
BONUS_RECENT_FAIL, PENALTY_NO_DOM_CHANGE). -/
structure ScoringWeights where
  must_score : Int
  should_score : Int
  may_score : Int
  bonus_new_elements : Int
  bonus_unseen_url : Int
  bonus_recent_fail : Int
  penalty_no_dom_change : Int
deriving Repr, DecidableEq

/-- Modelled from the spec: the default weight table
(MUST 100, SHOULD 60, MAY 30, +15 per element, +20 unseen URL,
+10 recent fail, -25 stagnation). -/
def defaultWeights : ScoringWeights :=
  { must_score := 100
    should_score := 60
    may_score := 30
    bonus_new_elements := 15
    bonus_unseen_url := 20
    bonus_recent_fail := 10
    penalty_no_dom_change := 25 }

/-- Base score of a priority tier under a weight table. -/
def baseScore (w : ScoringWeights) : Priority → Int
  | .MUST => w.must_score
  | .SHOULD => w.should_score
  | .MAY => w.may_score

/-- Modelled from the spec: `compute_priority_score(item, state)` of
`scoring.py` with the overridable weight table of section 4.1:
base + clamped-new-elements bonus + URL bonus + retry bonus − stagnation
penalty, the total clamped at zero. -/
def compute_priority_score (item : TestItem) (st : GAIAState) (w : ScoringWeights) : Int :=
  let base := baseScore w item.priority
  let new_elements := max 0 (item.new_elements.getD 0)
  let bonus_new := new_elements * w.bonus_new_elements
  let bonus_url := if urlUnseen item st then w.bonus_unseen_url else 0
  let bonus_retry := if st.has_recent_failure item.id then w.bonus_recent_fail else 0
  let penalty_stale := if st.is_stale item.id then w.penalty_no_dom_change else 0
  max 0 (base + bonus_new + bonus_url + bonus_retry - penalty_stale)

/-- The scoring formula exactly as the specification words it, with the
default constants inlined: max(0, base + 15*max(0, reported_new_elements)
+ url_bonus + retry_bonus − stagnation_penalty).  Stated separately so that
the implementation-side definition can be compared against it. -/
def specFormulaScore (item : TestItem) (st : GAIAState) : Int :=
  let base : Int :=
    match item.priority with
    | .MUST => 100
    | .SHOULD => 60
    | .MAY => 30
  let url_bonus : Int := if urlUnseen item st then 20 else 0
  let retry_bonus : Int := if st.has_recent_failure item.id then 10 else 0
  let stagnation_penalty : Int := if st.is_stale item.id then 25 else 0
  max 0 (base + 15 * max 0 (item.new_elements.getD 0) + url_bonus + retry_bonus - stagnation_penalty)

/-- Looking up a key right after updating it yields the written value. -/
theorem lookupId_updateId {β : Type} (id : String) (v : β) (l : List (String × β)) :
    lookupId id (updateId id v l) = some v := by
  induction l with
  | nil => simp [updateId, lookupId]
  | cons p rest ih =>
      obtain ⟨k, w⟩ := p
      by_cases h : k = id <;> simp [updateId, lookupId, h, ih]

/-- C1: with the default weight table, compute_priority_score equals
max(0, base + 15*max(0, reported_new_elements) + url_bonus + retry_bonus −
stagnation_penalty) with base 100/60/30 by tier, url_bonus 20 exactly when the
target URL is unvisited, retry_bonus 10 exactly when there is a failure in the
retry window, stagnation_penalty 25 exactly when the fingerprint is unchanged
since the last execution — and the penalty never applies on first scoring:
it is off when the item has no recorded fingerprint, and the first recorded
execution does not switch it on. -/
theorem compute_score_matches_spec_formula :
    (∀ item st, compute_priority_score item st defaultWeights = specFormulaScore item st)
    ∧ (∀ (st : GAIAState) id, lookupId id st.dom_history = none → st.is_stale id = false)
    ∧ (∀ (st : GAIAState) id fp, lookupId id st.dom_history = none →
        (st.record_outcome id fp).is_stale id = false) := by
  refine ⟨?_, ?_, ?_⟩
  · intro item st
    cases item.priority <;>
      simp [compute_priority_score, specFormulaScore, baseScore, defaultWeights, Int.mul_comm]
  · intro st id h
    simp [GAIAState.is_stale, h]
  · intro st id fp h
    simp [GAIAState.is_stale, GAIAState.record_outcome, h, lookupId_updateId]

/-- Closed instance of compute_score_matches_spec_formula: after a first
execution is recorded for an item with no prior fingerprint, the stagnation
penalty still does not apply to it. -/
theorem compute_score_matches_spec_formula_witness :
    lookupId "TC001" (GAIAState.initial 300).dom_history = none
    ∧ ((GAIAState.initial 300).record_outcome "TC001" "fp1").is_stale "TC001" = false :=
  ⟨rfl, compute_score_matches_spec_formula.2.2 (GAIAState.initial 300) "TC001" "fp1" rfl⟩

/-- C2: for every item (negative reported new-element counts included), every
state and every weight table, the computed score is non-negative. -/
theorem compute_score_nonneg (item : TestItem) (st : GAIAState) (w : ScoringWeights) :
    0 ≤ compute_priority_score item st w :=
  le_max_left 0 _

/-- C10: an item whose new-elements field is missing entirely scores exactly
as if the count were 0 — scoring is total and the per-element bonus term is
absent from its score. -/
theorem compute_score_missing_new_elements (item : TestItem) (st : GAIAState)
    (w : ScoringWeights) (h : item.new_elements = none) :
    compute_priority_score item st w =
      compute_priority_score { item with new_elements := some 0 } st w
    ∧ compute_priority_score item st w =
      max 0 (baseScore w item.priority
        + (if urlUnseen item st then w.bonus_unseen_url else 0)
        + (if st.has_recent_failure item.id then w.bonus_recent_fail else 0)
        - (if st.is_stale item.id then w.penalty_no_dom_change else 0)) := by
  constructor
  · simp [compute_priority_score, urlUnseen, h]
  · simp [compute_priority_score, h]

/-- A concrete MUST item whose new-elements field is absent. -/
def itemMissingCount : TestItem :=
  { id := "TC010"
    priority := .MUST
    name := "missing count"
    target_url := none
    new_elements := none }

/-- Closed instance of compute_score_missing_new_elements at a concrete item
with the field absent. -/
theorem compute_score_missing_new_elements_witness :
    itemMissingCount.new_elements = none
    ∧ compute_priority_score itemMissingCount (GAIAState.initial 300) defaultWeights =
        compute_priority_score { itemMissingCount with new_elements := some 0 }
          (GAIAState.initial 300) defaultWeights :=
  ⟨rfl, (compute_score_missing_new_elements itemMissingCount (GAIAState.initial 300)
      defaultWeights rfl).1⟩

/-- Modelled from the spec: an entry of the priority queue — the pending item
together with the score computed when it was (re-)inserted. -/
structure QueueEntry where
  score : Int
  item : TestItem
deriving Repr, DecidableEq

/-- Insert an entry into a list kept sorted by descending score; equal scores
keep insertion order (stable FIFO tie-break, one documented choice the spec
leaves open). -/
def insertByScore (e : QueueEntry) : List QueueEntry → List QueueEntry
  | [] => [e]
  | x :: xs => if x.score < e.score then e :: x :: xs else x :: insertByScore e xs

/-- Modelled from the spec: `AdaptivePriorityQueue` of `priority_queue.py` —
an ordered container of pending items keyed by score, with the configured
maximum capacity. -/
structure AdaptivePriorityQueue where
  max_size : Nat
  entries : List QueueEntry
deriving Repr, DecidableEq

/-- Modelled from the spec: construction requires a positive maximum capacity;
a non-positive capacity is a configuration error raised immediately. -/
def AdaptivePriorityQueue.new (max_size : Int) : Except String AdaptivePriorityQueue :=
  if max_size ≤ 0 then .error "max_size must be positive"
  else .ok { max_size := max_size.toNat, entries := [] }

/-- An empty queue with the given capacity. -/
def AdaptivePriorityQueue.empty (max_size : Nat) : AdaptivePriorityQueue :=
  { max_size := max_size, entries := [] }

/-- Whether an item id is already present in the queue. -/
def AdaptivePriorityQueue.containsId (q : AdaptivePriorityQueue) (id : String) : Bool :=
  q.entries.any (fun e => e.item.id = id)

/-- Modelled from the spec: `push(item, state)` computes the score via the
scoring engine; if the item id is already present the call is a no-op
(the duplicate guard quoted in CODE_REVIEW.md), otherwise the scored entry is
inserted in order. -/
def AdaptivePriorityQueue.push (q : AdaptivePriorityQueue) (item : TestItem)
    (st : GAIAState) (w : ScoringWeights) : AdaptivePriorityQueue :=
  if q.containsId item.id then q
  else
    let e : QueueEntry := { score := compute_priority_score item st w, item := item }
    { q with entries := insertByScore e q.entries }

/-- Take up to n highest-scoring entries from a descending list, discarding on
the way any entry whose id is already completed; returns the taken entries and
the remaining list (leftover entries are kept when the budget runs out). -/
def popTopAux (completed : List String) :
    List QueueEntry → Nat → List QueueEntry × List QueueEntry
  | es, 0 => ([], es)
  | [], _ + 1 => ([], [])
  | e :: es, n + 1 =>
      if completed.contains e.item.id then popTopAux completed es (n + 1)
      else
        let r := popTopAux completed es n
        (e :: r.1, r.2)

/-- Modelled from the spec: `pop_top_n(n)` (get_top_n) returns up to n
highest-scoring items not already completed, removing them from the structure;
n ≤ 0 returns an empty result without error (the guard quoted in
CODE_REVIEW.md).  Completed entries encountered on the way are dropped. -/
def AdaptivePriorityQueue.pop_top_n (q : AdaptivePriorityQueue) (n : Int)
    (completed : List String) : List QueueEntry × AdaptivePriorityQueue :=
  if n ≤ 0 then ([], q)
  else
    let r := popTopAux completed q.entries n.toNat
    (r.1, { q with entries := r.2 })

/-- Modelled from the spec: `remove_completed(ids)` purges any queued entry
whose id is now completed. -/
def AdaptivePriorityQueue.remove_completed (q : AdaptivePriorityQueue)
    (completed : List String) : AdaptivePriorityQueue :=
  { q with entries := q.entries.filter (fun e => ! completed.contains e.item.id) }

/-- Modelled from the spec: `rescore_all(state)` recomputes every pending
entry's score against the current state and rebuilds the ordering. -/
def AdaptivePriorityQueue.rescore_all (q : AdaptivePriorityQueue) (st : GAIAState)
    (w : ScoringWeights) : AdaptivePriorityQueue :=
  let rescored := q.entries.map (fun e => QueueEntry.mk (compute_priority_score e.item st w) e.item)
  { q with entries := rescored.foldl (fun acc e => insertByScore e acc) [] }

/-- The item ids held in a queue, in order. -/
def AdaptivePriorityQueue.ids (q : AdaptivePriorityQueue) : List String :=
  q.entries.map (fun e => e.item.id)

/-- Ordered insertion only adds the new entry: the ids afterwards are a
permutation of the new id consed onto the old ids. -/
theorem insertByScore_ids_perm (e : QueueEntry) (l : List QueueEntry) :
    ((insertByScore e l).map (fun x => x.item.id)).Perm
      (e.item.id :: l.map (fun x => x.item.id)) := by
  induction l with
  | nil => simp [insertByScore]
  | cons x xs ih =>
      by_cases h : x.score < e.score
      · simp [insertByScore, h]
      · simp only [insertByScore, if_neg h, List.map_cons]
        exact (ih.cons x.item.id).trans (List.Perm.swap e.item.id x.item.id _)

/-- push keeps the queue's ids duplicate-free. -/
theorem push_ids_nodup (q : AdaptivePriorityQueue) (item : TestItem) (st : GAIAState)
    (w : ScoringWeights) (h : q.ids.Nodup) : (q.push item st w).ids.Nodup := by
  unfold AdaptivePriorityQueue.push
  by_cases hc : q.containsId item.id
  · simpa [hc] using h
  · simp only [if_neg hc]
    have hmem : item.id ∉ q.entries.map (fun x => x.item.id) := by
      intro hmem
      rcases List.mem_map.mp hmem with ⟨x, hxmem, hxid⟩
      apply hc
      simp only [AdaptivePriorityQueue.containsId, List.any_eq_true, decide_eq_true_eq]
      exact ⟨x, hxmem, hxid⟩
    have hperm := insertByScore_ids_perm
      { score := compute_priority_score item st w, item := item } q.entries
    have : (item.id :: q.entries.map (fun x => x.item.id)).Nodup :=
      List.Nodup.cons hmem h
    exact hperm.nodup_iff.mpr this

/-- C3: a push whose item id is already present leaves the queue unchanged,
and consequently any sequence of pushes starting from a queue with
duplicate-free ids (the empty queue included) keeps every item id present at
most once. -/
theorem push_duplicate_noop_and_ids_unique :
    (∀ (q : AdaptivePriorityQueue) (item : TestItem) (st : GAIAState) (w : ScoringWeights),
      q.containsId item.id = true → q.push item st w = q)
    ∧ (∀ (ops : List (TestItem × GAIAState × ScoringWeights)) (q : AdaptivePriorityQueue),
      q.ids.Nodup →
      (ops.foldl (fun acc p => acc.push p.1 p.2.1 p.2.2) q).ids.Nodup) := by
  constructor
  · intro q item st w h
    simp [AdaptivePriorityQueue.push, h]
  · intro ops
    induction ops with
    | nil => intro q h; exact h
    | cons p rest ih =>
        intro q h
        exact ih _ (push_ids_nodup q p.1 p.2.1 p.2.2 h)

/-- A concrete item and the queue holding it, for closed instances. -/
def itemA : TestItem :=
  { id := "TCA", priority := .MUST, name := "a", target_url := none, new_elements := none }

/-- A one-entry queue holding itemA. -/
def queueA : AdaptivePriorityQueue :=
  (AdaptivePriorityQueue.empty 10).push itemA (GAIAState.initial 300) defaultWeights

/-- Closed instance of push_duplicate_noop_and_ids_unique: pushing itemA into
a queue that already holds it changes nothing, and a push sequence from the
empty queue yields duplicate-free ids. -/
theorem push_duplicate_noop_and_ids_unique_witness :
    queueA.containsId itemA.id = true
    ∧ queueA.push itemA (GAIAState.initial 300) defaultWeights = queueA
    ∧ ([(itemA, GAIAState.initial 300, defaultWeights),
        (itemA, GAIAState.initial 300, defaultWeights)].foldl
        (fun acc p => acc.push p.1 p.2.1 p.2.2) (AdaptivePriorityQueue.empty 10)).ids.Nodup :=
  ⟨by decide,
   push_duplicate_noop_and_ids_unique.1 queueA itemA (GAIAState.initial 300) defaultWeights
     (by decide),
   push_duplicate_noop_and_ids_unique.2 _ (AdaptivePriorityQueue.empty 10) (by decide)⟩

/-- Entries returned by popTopAux are never in the completed set. -/
theorem popTopAux_taken_not_completed (completed : List String) :
    ∀ (es : List QueueEntry) (k : Nat) (e : QueueEntry),
      e ∈ (popTopAux completed es k).1 → completed.contains e.item.id = false := by
  intro es
  induction es with
  | nil =>
      intro k e h
      cases k <;> simp [popTopAux] at h
  | cons x xs ih =>
      intro k e h
      cases k with
      | zero => simp [popTopAux] at h
      | succ n =>
          simp only [popTopAux] at h
          by_cases hc : completed.contains x.item.id = true
          · simp only [if_pos hc] at h
            exact ih (n + 1) e h
          · simp only [if_neg hc] at h
            rcases List.mem_cons.mp h with h1 | h2
            · subst h1
              exact Bool.eq_false_iff.mpr hc
            · exact ih n e h2

/-- Filtering twice with the same predicate is the same as filtering once. -/
theorem filter_twice {α : Type} (p : α → Bool) (l : List α) :
    (l.filter p).filter p = l.filter p := by
  induction l with
  | nil => rfl
  | cons x xs ih => by_cases h : p x <;> simp [List.filter_cons, h, ih]

/-- C4: an item id marked completed is never returned by pop_top_n, and
remove_completed applied again after the completed ids have already been
purged leaves the queue unchanged. -/
theorem completed_never_popped_and_purge_idempotent :
    (∀ (q : AdaptivePriorityQueue) (n : Int) (completed : List String) (id : String),
      completed.contains id = true →
      ∀ e ∈ (q.pop_top_n n completed).1, e.item.id ≠ id)
    ∧ (∀ (q : AdaptivePriorityQueue) (completed : List String),
      (q.remove_completed completed).remove_completed completed
        = q.remove_completed completed) := by
  constructor
  · intro q n completed id hid e he hne
    unfold AdaptivePriorityQueue.pop_top_n at he
    by_cases hn : n ≤ 0
    · simp [hn] at he
    · simp only [if_neg hn] at he
      have := popTopAux_taken_not_completed completed q.entries n.toNat e he
      rw [hne] at this
      rw [hid] at this
      exact Bool.true_eq_false.mp this
  · intro q completed
    simp [AdaptivePriorityQueue.remove_completed, filter_twice]

/-- A two-entry queue for the completed-filter instance. -/
def queueBC : AdaptivePriorityQueue :=
  ((AdaptivePriorityQueue.empty 10).push
      { id := "TCB", priority := .MUST, name := "b", target_url := none, new_elements := none }
      (GAIAState.initial 300) defaultWeights).push
    { id := "TCC", priority := .SHOULD, name := "c", target_url := none, new_elements := none }
    (GAIAState.initial 300) defaultWeights

/-- Closed instance of completed_never_popped_and_purge_idempotent: with
"TCC" completed, no entry popped from queueBC carries id "TCC". -/
theorem completed_never_popped_and_purge_idempotent_witness :
    (["TCC"].contains "TCC" = true)
    ∧ (∀ e ∈ (queueBC.pop_top_n 2 ["TCC"]).1, e.item.id ≠ "TCC") :=
  ⟨by decide,
   completed_never_popped_and_purge_idempotent.1 queueBC 2 ["TCC"] "TCC" (by decide)⟩

/-- C9: pop_top_n with a non-positive n returns an empty batch and leaves the
queue untouched, for every queue state (and, being a total function, it does
so without error). -/
theorem pop_top_n_nonpositive (q : AdaptivePriorityQueue) (n : Int)
    (completed : List String) (h : n ≤ 0) :
    q.pop_top_n n completed = ([], q) := by
  simp [AdaptivePriorityQueue.pop_top_n, h]

/-- Closed instance of pop_top_n_nonpositive at n = -3 on a non-empty queue. -/
theorem pop_top_n_nonpositive_witness :
    queueBC.pop_top_n (-3) [] = ([], queueBC) :=
  pop_top_n_nonpositive queueBC (-3) [] (by decide)

/-- Modelled from the spec: a raw ingestion candidate as received from the
Planner — either not of the expected dict shape at all, or a record whose
required fields (`id`, `priority`) may be missing. -/
inductive RawCandidate where
  | notDict
  | record (id : Option String) (priority : Option Priority) (name : Option String)
      (target_url : Option String) (new_elements : Option Int)
deriving Repr, DecidableEq

/-- Modelled from the spec: ingestion validation — a candidate missing a
required field, or not of the expected shape, is dropped (never raises). -/
def validateCandidate : RawCandidate → Option TestItem
  | .notDict => none
  | .record none _ _ _ _ => none
  | .record (some _) none _ _ _ => none
  | .record (some id) (some p) name url ne =>
      some { id := id, priority := p, name := name.getD "", target_url := url,
             new_elements := ne }

/-- Modelled from the spec: the execution counters reported by `get_stats`
(total_received, total_executed, total_success, total_failed, total_invalid,
rescore_count). -/
structure ExecStats where
  total_received : Nat
  total_executed : Nat
  total_success : Nat
  total_failed : Nat
  total_invalid : Nat
  rescore_count : Nat
deriving Repr, DecidableEq

/-- Modelled from the spec: `AdaptiveScheduler` of `adaptive_scheduler.py` —
the orchestrator owning the queue, the exploration state, the counters, the
per-item failure counts and the terminal-failure set. -/
structure AdaptiveScheduler where
  queue : AdaptivePriorityQueue
  state : GAIAState
  stats : ExecStats
  top_n_execution : Nat
  weights : ScoringWeights
  retry_limit : Nat
  failure_counts : List (String × Nat)
  terminal_failed : List String
deriving Repr, DecidableEq

/-- A scheduler with empty queue and fresh state, default weights. -/
def schedulerInit (top_n : Nat) : AdaptiveScheduler :=
  { queue := AdaptivePriorityQueue.empty 100
    state := GAIAState.initial 300
    stats := { total_received := 0, total_executed := 0, total_success := 0,
               total_failed := 0, total_invalid := 0, rescore_count := 0 }
    top_n_execution := top_n
    weights := defaultWeights
    retry_limit := 3
    failure_counts := []
    terminal_failed := [] }

/-- Modelled from the spec: one step of `ingest_items` — an invalid candidate
is silently dropped and counted, a valid one is scored and pushed. -/
def ingestOne (s : AdaptiveScheduler) (c : RawCandidate) : AdaptiveScheduler :=
  match validateCandidate c with
  | none =>
      { s with stats := { s.stats with total_invalid := s.stats.total_invalid + 1 } }
  | some item =>
      { s with
        queue := s.queue.push item s.state s.weights
        stats := { s.stats with total_received := s.stats.total_received + 1 } }

/-- Modelled from the spec: `ingest_items(candidates)` processes the ordered
sequence of candidate records; it is a total function, so it never raises. -/
def AdaptiveScheduler.ingest_items (s : AdaptiveScheduler)
    (cs : List RawCandidate) : AdaptiveScheduler :=
  cs.foldl ingestOne s

/-- Modelled from the spec: the Executor outcome as seen through the
integration boundary — success with an optional fingerprint and a count of
newly observed elements, plain failure, a raised exception, or a timeout. -/
inductive ExecOutcome where
  | success (fingerprint : Option String) (new_elements_count : Nat)
  | failure
  | exn
  | timeout
deriving Repr, DecidableEq

/-- Modelled from the spec: the catch-all around the Executor — an exception
or timeout is treated as an execution failure. -/
def asFailure : ExecOutcome → ExecOutcome
  | .exn => .failure
  | .timeout => .failure
  | o => o

/-- Modelled from the spec: applying a failure outcome — record the failure
time, bump the failure count, and either re-enqueue the item (still within the
retry limit) or mark it terminal-failed. -/
def applyFailure (s : AdaptiveScheduler) (item : TestItem) (round : Nat) :
    AdaptiveScheduler :=
  let cnt := (lookupId item.id s.failure_counts).getD 0 + 1
  let s1 : AdaptiveScheduler :=
    { s with
      state := s.state.mark_failed item.id round
      failure_counts := updateId item.id cnt s.failure_counts
      stats := { s.stats with
                 total_executed := s.stats.total_executed + 1
                 total_failed := s.stats.total_failed + 1 } }
  if s1.retry_limit < cnt then
    { s1 with terminal_failed := insertSet item.id s1.terminal_failed }
  else
    { s1 with queue := s1.queue.push item s1.state s1.weights }

/-- Modelled from the spec: executing one popped item — the outcome is taken
through the failure catch-all; on success the item is marked completed and the
new URL and fingerprint are recorded, on failure the retry logic applies. -/
def execItem (executor : TestItem → ExecOutcome) (round : Nat)
    (s : AdaptiveScheduler) (e : QueueEntry) : AdaptiveScheduler :=
  match executor e.item with
  | .success fp _ =>
      let st1 := s.state.mark_url_visited (e.item.target_url.getD "")
      let st2 := match fp with
        | none => st1
        | some f => st1.record_outcome e.item.id f
      { s with
        state := st2.mark_completed e.item.id
        stats := { s.stats with
                   total_executed := s.stats.total_executed + 1
                   total_success := s.stats.total_success + 1 } }
  | .failure => applyFailure s e.item round
  | .exn => applyFailure s e.item round
  | .timeout => applyFailure s e.item round

/-- Modelled from the spec: the summary returned by
`execute_until_complete` — execution counters plus a state snapshot and the
number of rounds used. -/
structure RunSummary where
  total_received : Nat
  total_executed : Nat
  total_success : Nat
  total_failed : Nat
  total_invalid : Nat
  rescore_count : Nat
  visited_urls : Nat
  completed_tests : Nat
  failed_tests : Nat
  execution_rounds : Nat
deriving Repr, DecidableEq

/-- Build the summary from the scheduler's counters and state snapshot. -/
def mkSummary (s : AdaptiveScheduler) (rounds : Nat) : RunSummary :=
  { total_received := s.stats.total_received
    total_executed := s.stats.total_executed
    total_success := s.stats.total_success
    total_failed := s.stats.total_failed
    total_invalid := s.stats.total_invalid
    rescore_count := s.stats.rescore_count
    visited_urls := s.state.visited_urls.length
    completed_tests := s.state.completed_ids.length
    failed_tests := s.state.failure_timestamps.length
    execution_rounds := rounds }

/-- Queue entries still pending (not completed). -/
def pendingCount (s : AdaptiveScheduler) : Nat :=
  (s.queue.entries.filter (fun e => ! s.state.completed_ids.contains e.item.id)).length

/-- Modelled from the spec: the completion test — stop when the queue is
empty or completed / (completed + pending + failed-terminal) has reached the
threshold; the rational comparison is done cross-multiplied
(completionCheck_iff_ratio below shows the two forms agree). -/
def completionReached (s : AdaptiveScheduler) (threshold : Rat) : Bool :=
  let completed := s.state.completed_ids.length
  let pending := pendingCount s
  let terminal := s.terminal_failed.length
  let total := completed + pending + terminal
  s.queue.entries.isEmpty ||
    decide (threshold.num * (total : Int) ≤ (completed : Int) * (threshold.den : Int))

/-- Modelled from the spec: one execution round — pop the top-N pending
items, execute each through the failure catch-all, and re-score the remaining
queue when an outcome added a URL or changed a tracked fingerprint. -/
def runRound (executor : TestItem → ExecOutcome) (s : AdaptiveScheduler)
    (round : Nat) : AdaptiveScheduler :=
  let popped := s.queue.pop_top_n (Int.ofNat s.top_n_execution) s.state.completed_ids
  let s1 : AdaptiveScheduler :=
    { s with queue := popped.2, state := { s.state with now := round } }
  let s2 := popped.1.foldl (execItem executor round) s1
  if s2.state.visited_urls ≠ s.state.visited_urls
      ∨ s2.state.dom_history ≠ s.state.dom_history then
    { s2 with
      queue := s2.queue.rescore_all s2.state s2.weights
      stats := { s2.stats with rescore_count := s2.stats.rescore_count + 1 } }
  else s2

/-- Modelled from the spec: the round loop — up to the round budget, checking
the cancellation signal between rounds, stopping on completion and always
producing a summary. -/
def runRounds (executor : TestItem → ExecOutcome) (threshold : Rat)
    (cancel : Nat → Bool) : Nat → AdaptiveScheduler → Nat → RunSummary
  | 0, s, roundsDone => mkSummary s roundsDone
  | fuel + 1, s, roundsDone =>
      if cancel roundsDone then mkSummary s roundsDone
      else
        let s' := runRound executor s (roundsDone + 1)
        if completionReached s' threshold then mkSummary s' (roundsDone + 1)
        else runRounds executor threshold cancel fuel s' (roundsDone + 1)

/-- Modelled from the spec: the two up-front configuration errors of
`execute_until_complete`. -/
inductive ConfigError where
  | invalid_threshold
  | invalid_max_rounds
deriving Repr, DecidableEq

/-- Modelled from the spec: `execute_until_complete(executor, max_rounds,
completion_threshold)` — validates the threshold and round budget up front
(raising a configuration error immediately when invalid) and otherwise runs
the round loop, always returning a summary. -/
def AdaptiveScheduler.execute_until_complete (s : AdaptiveScheduler)
    (executor : TestItem → ExecOutcome) (max_rounds : Int) (threshold : Rat)
    (cancel : Nat → Bool) : Except ConfigError RunSummary :=
  if 0 ≤ threshold ∧ threshold ≤ 1 then
    if 0 < max_rounds then
      .ok (runRounds executor threshold cancel max_rounds.toNat s 0)
    else .error .invalid_max_rounds
  else .error .invalid_threshold

/-- C5: a malformed candidate anywhere in an ingestion sequence is dropped:
ingest_items (a total function, so it cannot raise) leaves the queue and the
exploration state exactly as they are without that candidate and increments
total_invalid by exactly 1 for it. -/
theorem ingest_malformed_dropped (s : AdaptiveScheduler) (cs : List RawCandidate)
    (c : RawCandidate) (h : validateCandidate c = none) :
    (s.ingest_items (cs ++ [c])).queue = (s.ingest_items cs).queue
    ∧ (s.ingest_items (cs ++ [c])).stats.total_invalid
        = (s.ingest_items cs).stats.total_invalid + 1
    ∧ (s.ingest_items (cs ++ [c])).state = (s.ingest_items cs).state
    ∧ (s.ingest_items (cs ++ [c])).stats.total_received
        = (s.ingest_items cs).stats.total_received := by
  have hstep : s.ingest_items (cs ++ [c]) = ingestOne (s.ingest_items cs) c := by
    simp [AdaptiveScheduler.ingest_items, List.foldl_append]
  rw [hstep]
  simp [ingestOne, h]

/-- Closed instance of ingest_malformed_dropped: a record missing its id,
ingested after one valid record, bumps only the invalid counter and leaves
the queue as it was. -/
theorem ingest_malformed_dropped_witness :
    validateCandidate (RawCandidate.record none (some .MUST) (some "no id") none none) = none
    ∧ ((schedulerInit 2).ingest_items
        [RawCandidate.record (some "TC001") (some .MUST) (some "login") none none,
         RawCandidate.record none (some .MUST) (some "no id") none none]).stats.total_invalid
      = ((schedulerInit 2).ingest_items
          [RawCandidate.record (some "TC001") (some .MUST) (some "login") none none]).stats.total_invalid
        + 1 :=
  ⟨rfl,
   (ingest_malformed_dropped (schedulerInit 2)
      [RawCandidate.record (some "TC001") (some .MUST) (some "login") none none]
      (RawCandidate.record none (some .MUST) (some "no id") none none) rfl).2.1⟩

/-- C6: execute_until_complete raises a configuration error exactly when the
threshold is outside [0,1] or the round budget is not positive; for every
valid configuration — any executor, any cancellation signal, any round
budget — it returns a summary. -/
theorem execute_until_complete_config_validation
    (s : AdaptiveScheduler) (executor : TestItem → ExecOutcome) (max_rounds : Int)
    (threshold : Rat) (cancel : Nat → Bool) :
    ((0 ≤ threshold ∧ threshold ≤ 1) → 0 < max_rounds →
      s.execute_until_complete executor max_rounds threshold cancel
        = .ok (runRounds executor threshold cancel max_rounds.toNat s 0))
    ∧ (¬ (0 ≤ threshold ∧ threshold ≤ 1) →
      s.execute_until_complete executor max_rounds threshold cancel
        = .error .invalid_threshold)
    ∧ ((0 ≤ threshold ∧ threshold ≤ 1) → ¬ 0 < max_rounds →
      s.execute_until_complete executor max_rounds threshold cancel
        = .error .invalid_max_rounds) := by
  refine ⟨?_, ?_, ?_⟩
  · intro ht hm
    have hm' : ¬ max_rounds ≤ 0 := not_le.mpr hm
    simp [AdaptiveScheduler.execute_until_complete, ht, hm]
  · intro ht
    simp [AdaptiveScheduler.execute_until_complete, ht]
  · intro ht hm
    simp [AdaptiveScheduler.execute_until_complete, ht, hm]

/-- Closed instance of execute_until_complete_config_validation: a threshold
of 2 is rejected up front, and a valid configuration returns a summary even
when the executor always times out and cancellation fires immediately. -/
theorem execute_until_complete_config_validation_witness :
    (schedulerInit 2).execute_until_complete (fun _ => .timeout) 5 2 (fun _ => false)
      = .error .invalid_threshold
    ∧ (schedulerInit 2).execute_until_complete (fun _ => .timeout) 5 (1/2) (fun _ => true)
      = .ok (runRounds (fun _ => .timeout) (1/2) (fun _ => true) (Int.toNat 5)
          (schedulerInit 2) 0) :=
  ⟨(execute_until_complete_config_validation (schedulerInit 2) (fun _ => .timeout) 5 2
      (fun _ => false)).2.1 (by norm_num),
   (execute_until_complete_config_validation (schedulerInit 2) (fun _ => .timeout) 5 (1/2)
      (fun _ => true)).1 (by norm_num) (by norm_num)⟩

/-- Wrapping an executor in the failure catch-all changes nothing about how a
single item is executed. -/
theorem execItem_asFailure (f : TestItem → ExecOutcome) (round : Nat)
    (s : AdaptiveScheduler) (e : QueueEntry) :
    execItem (fun item => asFailure (f item)) round s e = execItem f round s e := by
  cases h : f e.item <;> simp [execItem, asFailure, h]

/-- Function form of execItem_asFailure, for rewriting under foldl. -/
theorem execItem_asFailure_fun (f : TestItem → ExecOutcome) (round : Nat) :
    execItem (fun item => asFailure (f item)) round = execItem f round := by
  funext s e
  exact execItem_asFailure f round s e

/-- Wrapping an executor in the failure catch-all changes nothing about a
round. -/
theorem runRound_asFailure (f : TestItem → ExecOutcome) (s : AdaptiveScheduler)
    (round : Nat) :
    runRound (fun item => asFailure (f item)) s round = runRound f s round := by
  simp only [runRound, execItem_asFailure_fun]

/-- Wrapping an executor in the failure catch-all changes nothing about the
round loop. -/
theorem runRounds_asFailure (f : TestItem → ExecOutcome) (threshold : Rat)
    (cancel : Nat → Bool) :
    ∀ (fuel : Nat) (s : AdaptiveScheduler) (roundsDone : Nat),
      runRounds (fun item => asFailure (f item)) threshold cancel fuel s roundsDone
        = runRounds f threshold cancel fuel s roundsDone := by
  intro fuel
  induction fuel with
  | zero => intro s roundsDone; rfl
  | succ n ih =>
      intro s roundsDone
      simp only [runRounds, runRound_asFailure, ih]

/-- The cross-multiplied completion comparison agrees with the specification's
ratio form whenever there is at least one tracked item. -/
theorem completionCheck_iff_ratio (t : Rat) (completed total : Nat) (h : 0 < total) :
    (t.num * (total : Int) ≤ (completed : Int) * (t.den : Int))
      ↔ t ≤ (completed : Rat) / (total : Rat) := by
  have htq : (0 : Rat) < (total : Rat) := by exact_mod_cast h
  have hden : (0 : Rat) < (t.den : Rat) := by exact_mod_cast t.den_pos
  rw [le_div_iff₀ htq]
  conv_rhs => rw [show (t : Rat) = (t.num : Rat) / (t.den : Rat) from (Rat.num_div_den t).symm]
  rw [div_mul_eq_mul_div, div_le_iff₀ hden]
  constructor
  · intro hh
    exact_mod_cast hh
  · intro hh
    exact_mod_cast hh

/-- The failure branch bumps the executed and failed counters by one. -/
theorem applyFailure_counters (s : AdaptiveScheduler) (item : TestItem) (round : Nat) :
    (applyFailure s item round).stats.total_failed = s.stats.total_failed + 1
    ∧ (applyFailure s item round).stats.total_executed = s.stats.total_executed + 1 := by
  constructor <;> (simp only [applyFailure]; split <;> rfl)

/-- C7: an Executor call that raises or times out is recorded as an execution
failure for that item (failure branch taken, failed counter bumped) and never
propagates: running the loop with any executor is identical to running it with
that executor's exceptions and timeouts already converted to failures, and
every run under a valid configuration still returns a summary. -/
theorem executor_failures_contained :
    (∀ (s : AdaptiveScheduler) (executor : TestItem → ExecOutcome) (round : Nat)
      (e : QueueEntry),
      executor e.item = .exn ∨ executor e.item = .timeout →
      execItem executor round s e = applyFailure s e.item round
      ∧ (execItem executor round s e).stats.total_failed = s.stats.total_failed + 1)
    ∧ (∀ (s : AdaptiveScheduler) (executor : TestItem → ExecOutcome) (max_rounds : Int)
      (threshold : Rat) (cancel : Nat → Bool),
      s.execute_until_complete (fun item => asFailure (executor item)) max_rounds
          threshold cancel
        = s.execute_until_complete executor max_rounds threshold cancel)
    ∧ (∀ (s : AdaptiveScheduler) (executor : TestItem → ExecOutcome) (max_rounds : Int)
      (threshold : Rat) (cancel : Nat → Bool),
      0 ≤ threshold ∧ threshold ≤ 1 → 0 < max_rounds →
      ∃ sum, s.execute_until_complete executor max_rounds threshold cancel
        = Except.ok sum) := by
  refine ⟨?_, ?_, ?_⟩
  · intro s executor round e h
    have hbranch : execItem executor round s e = applyFailure s e.item round := by
      rcases h with h | h <;> simp [execItem, h]
    refine ⟨hbranch, ?_⟩
    rw [hbranch]
    exact (applyFailure_counters s e.item round).1
  · intro s executor max_rounds threshold cancel
    simp only [AdaptiveScheduler.execute_until_complete, runRounds_asFailure]
  · intro s executor max_rounds threshold cancel ht hm
    refine ⟨runRounds executor threshold cancel max_rounds.toNat s 0, ?_⟩
    exact (execute_until_complete_config_validation s executor max_rounds threshold
      cancel).1 ht hm

/-- Closed instance of executor_failures_contained: an always-raising executor
on a popped entry takes the failure branch and bumps the failed counter. -/
theorem executor_failures_contained_witness :
    ((fun _ : TestItem => ExecOutcome.exn) itemA = ExecOutcome.exn
      ∨ (fun _ : TestItem => ExecOutcome.exn) itemA = ExecOutcome.timeout)
    ∧ (execItem (fun _ => ExecOutcome.exn) 1 (schedulerInit 2)
        { score := 120, item := itemA }).stats.total_failed
      = (schedulerInit 2).stats.total_failed + 1 :=
  ⟨Or.inl rfl,
   (executor_failures_contained.1 (schedulerInit 2) (fun _ => ExecOutcome.exn) 1
      { score := 120, item := itemA } (Or.inl rfl)).2⟩

/-- A valid MUST candidate for the Scenario D run. -/
def candMust (id : String) (nm : String) : RawCandidate :=
  RawCandidate.record (some id) (some .MUST) (some nm) none none

/-- The Scenario D scheduler: three valid items ingested, top-N of 2. -/
def scenarioScheduler : AdaptiveScheduler :=
  (schedulerInit 2).ingest_items
    [candMust "TC001" "a", candMust "TC002" "b", candMust "TC003" "c"]

/-- An Executor that succeeds on the first attempt for every item. -/
def allSuccess : TestItem → ExecOutcome :=
  fun _ => .success (some "fp-d") 0

/-- C8: ingesting 3 valid items with top_n_execution = 2,
completion_threshold = 1.0 and max_rounds = 5, with an Executor succeeding on
the first attempt for every item, terminates after exactly 2 rounds with
completed_tests = 3. -/
theorem scenarioD_two_rounds_three_completed :
    (scenarioScheduler.execute_until_complete allSuccess 5 1 (fun _ => false)).map
        (fun sum => (sum.execution_rounds, sum.completed_tests))
      = .ok (2, 3) := by
  rfl

end GaiaScheduler
